import Mathlib

/-!
Verification of the clipboard synchronization engine of the
`gnome-clipboard-sync` GNOME Shell extension.

The source (`extension.js`) is a GJS program.  We shallowly embed the parts
of it the claims are about:

* the selection-channel enumeration (`SELECTION_KEYS`, `St.ClipboardType`);
* the in-memory state store `this._latestState` (a JS `Map` from channel key
  string to `\x7b text, timestamp, node \x7d` records), embedded as an
  association list with JS-`Map` get/set semantics;
* the echo-suppression set `this._suppressedSelections`, embedded as a
  duplicate-free list;
* `_selectionFromKey`, `_selectionKey`, `_shouldAcceptUpdate`,
  `_recordState`, `_setClipboardFromRemote`, `_handlePayload`,
  `_processIncoming` and the endpoint-resolution half of `_sendMessage`
  (Lean names drop the leading underscore).

JavaScript-specific conventions of the embedding:

* JS timestamps are numbers; all values the program compares are integer
  millisecond epochs, embedded as `Int` (`<` and `===` on such numbers agree
  with `Int` order and equality).
* A JSON payload field that is absent, or present with a value of the wrong
  runtime type, is embedded as `none` (e.g. `payload.secret` of the wrong
  type is `!==` every string, exactly like a missing field).
* The JS `x || d` defaulting idiom on string fields treats both a missing
  field and the empty string as falsy; `Number(payload.timestamp) || now`
  treats a missing/non-numeric field (`Number` gives `NaN`) and `0` as
  falsy.  The helpers `jsOr` and `jsNumOr` embed these two idioms.
* Calls to the external clipboard collaborator
  (`this._clipboard.set_text(selection, text)`) are embedded as an explicit
  effect list returned next to the new state, so "the clipboard is
  untouched" is the effect list being empty.
* `Date.now()` is passed in as an explicit `now : Int` argument.
* `JSON.parse` and `GLib.Uri.parse` are platform builtins, not repository
  code; their outcome is passed to the embedded functions as an argument
  (`Option` / `Except` shaped exactly like the success/throw cases the
  source distinguishes).  In particular `JSON.parse` applied to the empty
  string throws, so an empty received line lands in the `Except.error` case.
-/

namespace ClipboardSync

/-- `St.ClipboardType`: the two selection channels handled by
`SELECTION_KEYS` in the source. -/
inductive ClipboardType where
  | CLIPBOARD
  | PRIMARY
deriving DecidableEq, Repr

/-- One entry of `this._latestState`: the object literal
`\x7b text, timestamp, node \x7d` built in `_recordState`. -/
structure StateRecord where
  text : String
  timestamp : Int
  node : String
deriving DecidableEq, Repr

/-- The configuration values `_handlePayload` and `_selectionFromKey` read
from `this._settings`: `shared-secret` (with the `|| ''` default applied,
which is the identity on strings) and `sync-primary`. -/
structure Settings where
  sharedSecret : String
  syncPrimary : Bool
deriving DecidableEq, Repr

/-- The mutable extension state touched by the server path: `this._nodeId`,
`this._latestState` and `this._suppressedSelections`, together with the
settings read during handling. -/
structure ExtState where
  settings : Settings
  nodeId : String
  latestState : List (String × StateRecord)
  suppressedSelections : List String
deriving DecidableEq, Repr

/-- A parsed wire payload: the fields of the JSON object `_handlePayload`
reads.  Each field is optional; `none` embeds a field that is absent or has
a value of the wrong runtime type. -/
structure Payload where
  secret : Option String
  type : Option String
  selection : Option String
  timestamp : Option Int
  node : Option String
  text : Option String
deriving DecidableEq, Repr

/-- The result of `JSON.parse` on a received line, as `_handlePayload`
discriminates it: either a value that is falsy or not an object
(`!payload || typeof payload !== 'object'`), or an object whose fields are
read as a `Payload`. -/
inductive Parsed where
  | nonObject
  | object (p : Payload)
deriving DecidableEq, Repr

/-- The one JSON response object written per connection.  `ok`, `ignored`,
`empty`, `unauthorized` carry only their status; `error` carries the
`message` field; `pullOk` is the pull reply
`\x7b status:"ok", type:"update", node, selection, timestamp, text \x7d`. -/
inductive Response where
  | ok
  | ignored
  | empty
  | unauthorized
  | error (message : String)
  | pullOk (node : String) (selection : String) (timestamp : Int) (text : String)
deriving DecidableEq, Repr

/-- A call to the external clipboard:
`this._clipboard.set_text(selection, text)`. -/
structure ClipboardWrite where
  selection : ClipboardType
  text : String
deriving DecidableEq, Repr

/-- The JS string-defaulting idiom `v || d`: a missing field and the empty
string are falsy. -/
def jsOr (v : Option String) (d : String) : String :=
  match v with
  | none => d
  | some s => if s = "" then d else s

/-- The JS numeric-defaulting idiom `Number(v) || d`: a missing or
non-numeric field (`Number` yields `NaN`) and `0` are falsy. -/
def jsNumOr (v : Option Int) (d : Int) : Int :=
  match v with
  | none => d
  | some n => if n = 0 then d else n

/-- JS `Map.prototype.get` on the association-list embedding of
`this._latestState`. -/
def getState : List (String × StateRecord) → String → Option StateRecord
  | [], _ => none
  | (k, v) :: rest, key => if key = k then some v else getState rest key

/-- JS `Map.prototype.set`: replace the binding in place when the key is
present, append it otherwise. -/
def setState : List (String × StateRecord) → String → StateRecord → List (String × StateRecord)
  | [], key, v => [(key, v)]
  | (k, w) :: rest, key, v =>
    if key = k then (key, v) :: rest else (k, w) :: setState rest key v

/-- JS `Set.prototype.add` on the list embedding of
`this._suppressedSelections`. -/
def addSuppressed (l : List String) (k : String) : List String :=
  if k ∈ l then l else l ++ [k]

/-- `_selectionKey(selection)`: `SELECTION_KEYS.get(selection) || 'CLIPBOARD'`
(the lookup always succeeds on the enumeration, so the `|| 'CLIPBOARD'`
fallback is dead). -/
def selectionKey : ClipboardType → String
  | .CLIPBOARD => "CLIPBOARD"
  | .PRIMARY => "PRIMARY"

/-- `_selectionFromKey(key)`: scan `SELECTION_KEYS` for a name equal to
`key`; a `PRIMARY` hit is refused (`null`) when the `sync-primary` setting
is disabled; anything unmatched is `null`.  The argument is the raw
`payload.selection`, so a missing field matches nothing. -/
def selectionFromKey (syncPrimary : Bool) (key : Option String) : Option ClipboardType :=
  match key with
  | some "CLIPBOARD" => some .CLIPBOARD
  | some "PRIMARY" => if syncPrimary then some .PRIMARY else none
  | _ => none

/-- `_shouldAcceptUpdate(selection, timestamp, sourceNode, text)`, translated
line by line from the source. -/
def shouldAcceptUpdate (st : ExtState) (selection : ClipboardType)
    (timestamp : Int) (sourceNode : String) (text : String) : Bool :=
  let key := selectionKey selection
  let current := getState st.latestState key
  if sourceNode = st.nodeId then
    false
  else
    match current with
    | none => true
    | some c =>
      if timestamp < c.timestamp then
        false
      else if timestamp = c.timestamp ∧ text = c.text then
        false
      else
        true

/-- `_recordState(selection, text, timestamp, node)`. -/
def recordState (st : ExtState) (selection : ClipboardType) (text : String)
    (timestamp : Int) (node : String) : ExtState :=
  { st with latestState := setState st.latestState (selectionKey selection) ⟨text, timestamp, node⟩ }

/-- The state part of `_setClipboardFromRemote(selection, text)`: mark the
channel in the echo-suppression set.  The `set_text` call it performs is
returned as an effect by `handlePayload`. -/
def setClipboardFromRemote (st : ExtState) (selection : ClipboardType) : ExtState :=
  { st with suppressedSelections := addSuppressed st.suppressedSelections (selectionKey selection) }

/-- `_handlePayload(payload)`: authentication, then dispatch on
`payload.type || 'update'`.  Returns the response, the extension state after
handling, and the list of clipboard writes performed. -/
def handlePayload (st : ExtState) (now : Int) (pp : Parsed) :
    Response × ExtState × List ClipboardWrite :=
  match pp with
  | .nonObject => (.error "Invalid payload", st, [])
  | .object payload =>
    let expectedSecret := st.settings.sharedSecret
    if payload.secret ≠ some expectedSecret then
      (.unauthorized, st, [])
    else
      let type := jsOr payload.type "update"
      if type = "update" then
        match selectionFromKey st.settings.syncPrimary payload.selection with
        | none => (.error "Unknown selection", st, [])
        | some selection =>
          let timestamp := jsNumOr payload.timestamp now
          let sourceNode := jsOr payload.node "remote"
          let text := (payload.text).getD ""
          if ¬ shouldAcceptUpdate st selection timestamp sourceNode text then
            (.ignored, st, [])
          else
            let st1 := setClipboardFromRemote st selection
            let st2 := recordState st1 selection text timestamp sourceNode
            (.ok, st2, [⟨selection, text⟩])
      else if type = "pull" then
        match getState st.latestState (jsOr payload.selection "CLIPBOARD") with
        | none => (.empty, st, [])
        | some state =>
          (.pullOk st.nodeId (jsOr payload.selection "CLIPBOARD") state.timestamp state.text,
            st, [])
      else
        (.error (String.append "Unsupported payload type: " type), st, [])

/-- `_processIncoming(connection)`, at the level the claims speak about.
The argument `line` is the outcome of reading and parsing the one request
line: `none` embeds `read_line_async` resolving to `null` (connection closed
with no line; the handler returns early and the `finally` block writes the
initial `\x7b status:'ignored' \x7d` response), `some (.error msg)` embeds a
throw while decoding/parsing (in particular `JSON.parse` throws on the empty
string, so an empty received line is always here), and `some (.ok p)` a
successful parse handed to `_handlePayload`. -/
def processIncoming (st : ExtState) (now : Int)
    (line : Option (Except String Parsed)) :
    Response × ExtState × List ClipboardWrite :=
  match line with
  | none => (.ignored, st, [])
  | some (.error msg) => (.error msg, st, [])
  | some (.ok payload) => handlePayload st now payload

/-- The parsed components of the peer URI that `_sendMessage` reads:
`uri.get_host()` (nullable) and `uri.get_port()` (`-1` when absent). -/
structure UriInfo where
  host : Option String
  port : Int
deriving DecidableEq, Repr

/-- The endpoint-resolution prefix of `_sendMessage(payload)`: everything up
to opening the socket.  `endpoint` is the `peer-endpoint` setting, `parsed`
the outcome of `GLib.Uri.parse` (`none` embeds a throw), `listenPort` the
`listen-port` setting.  `none` means the function returns `null` without
connecting; `some (h, p)` means it proceeds to open a TCP connection to
`h:p`. -/
def resolvePeer (endpoint : String) (parsed : Option UriInfo) (listenPort : Int) :
    Option (String × Int) :=
  if endpoint = "" then none
  else
    match parsed with
    | none => none
    | some uri =>
      let port := if uri.port = -1 then listenPort else uri.port
      match uri.host with
      | none => none
      | some host =>
        if host = "" ∨ port ≤ 0 ∨ port > 65535 then none
        else some (host, port)

/-- ReconciliationEngine reference definition, following the spec's words
(§4.1), for comparison with the source-translated `shouldAcceptUpdate`.
Rules, evaluated in order: 1. if `incomingNode == localNodeId`, reject;
2. if no current record exists for the channel, accept; 3. if
`incomingTimestamp < current.timestamp`, reject; 4. if
`incomingTimestamp == current.timestamp` and
`incomingText == current.text`, reject; 5. otherwise accept. -/
def shouldAcceptSpec (current : Option StateRecord) (incomingTimestamp : Int)
    (incomingNode incomingText localNodeId : String) : Bool :=
  if incomingNode = localNodeId then false
  else
    match current with
    | none => true
    | some c =>
      if incomingTimestamp < c.timestamp then false
      else if incomingTimestamp = c.timestamp ∧ incomingText = c.text then false
      else true

/-- Lookup after an update of the JS-`Map` embedding: reading the written
key gives the new record, reading any other key is unaffected. -/
theorem getState_setState (l : List (String × StateRecord)) (k k' : String)
    (v : StateRecord) :
    getState (setState l k v) k' = if k' = k then some v else getState l k' := by
  induction l with
  | nil => simp [setState, getState]
  | cons hd tl ih =>
    obtain ⟨a, b⟩ := hd
    by_cases hka : k = a
    · subst hka
      by_cases hk' : k' = k <;> simp [setState, getState, hk']
    · by_cases hk'a : k' = a
      · subst hk'a
        have hk'k : ¬ k' = k := fun h => hka h.symm
        simp [setState, getState, hka, hk'k]
      · simp [setState, getState, hka, hk'a, ih]

/-- An accepted update never comes from the local node (rule 1 of
`_shouldAcceptUpdate`). -/
theorem shouldAccept_node_ne (st : ExtState) (sel : ClipboardType) (ts : Int)
    (node text : String)
    (hacc : shouldAcceptUpdate st sel ts node text = true) :
    node ≠ st.nodeId := by
  intro h
  simp only [shouldAcceptUpdate, h, if_pos] at hacc
  exact Bool.false_ne_true hacc

/-- An accepted update over an existing record never lowers the timestamp
(rule 3 of `_shouldAcceptUpdate`). -/
theorem shouldAccept_timestamp_ge (st : ExtState) (sel : ClipboardType)
    (ts : Int) (node text : String) (c : StateRecord)
    (hacc : shouldAcceptUpdate st sel ts node text = true)
    (hc : getState st.latestState (selectionKey sel) = some c) :
    c.timestamp ≤ ts := by
  simp only [shouldAcceptUpdate, hc] at hacc
  by_cases hnode : node = st.nodeId
  · simp [hnode] at hacc
  · simp only [hnode, if_false, if_neg] at hacc
    by_cases hlt : ts < c.timestamp
    · simp [hlt] at hacc
    · exact Int.not_lt.mp hlt

/-- `handlePayload` only reads the payload through its effective views:
the raw secret, `payload.type || 'update'`, the raw selection,
`Number(payload.timestamp) || now`, `payload.node || 'remote'` and the raw
text.  Two payloads equal under those views are handled identically. -/
theorem handlePayload_congr (st : ExtState) (now : Int) (p q : Payload)
    (hsec : p.secret = q.secret)
    (hty : jsOr p.type "update" = jsOr q.type "update")
    (hsel : p.selection = q.selection)
    (hts : jsNumOr p.timestamp now = jsNumOr q.timestamp now)
    (hnode : jsOr p.node "remote" = jsOr q.node "remote")
    (htext : p.text = q.text) :
    handlePayload st now (.object p) = handlePayload st now (.object q) := by
  simp only [handlePayload, hsec, hty, hsel, hts, hnode, htext]

/-- Claim C4: for every channel, incoming timestamp, incoming node,
incoming text and current stored state, the source's `_shouldAcceptUpdate`
equals the spec's five-rule reference definition evaluated in order
(self-echo, no record, stale, duplicate, accept). -/
theorem shouldAccept_matches_reference (st : ExtState) (selection : ClipboardType)
    (timestamp : Int) (sourceNode text : String) :
    shouldAcceptUpdate st selection timestamp sourceNode text =
      shouldAcceptSpec (getState st.latestState (selectionKey selection))
        timestamp sourceNode text st.nodeId := rfl

/-- Claim C5: a payload of any type whose secret field does not exactly
equal the configured shared secret is answered `status:"unauthorized"`, the
state store and suppression set are unchanged, and no clipboard write is
performed. -/
theorem unauthorized_no_state_change (st : ExtState) (now : Int) (p : Payload)
    (hsec : p.secret ≠ some st.settings.sharedSecret) :
    handlePayload st now (.object p) = (.unauthorized, st, []) := by
  simp [handlePayload, hsec]

def wAuthState : ExtState := ⟨⟨"s", true⟩, "B", [], []⟩

def wBadSecret : Payload :=
  ⟨some "wrong", some "update", some "CLIPBOARD", some 5, some "A", some "x"⟩

/-- Witness for C5 at a concrete state and payload. -/
theorem unauthorized_no_state_change_witness :
    handlePayload wAuthState 0 (.object wBadSecret) = (.unauthorized, wAuthState, []) :=
  unauthorized_no_state_change wAuthState 0 wBadSecret (by decide)

/-- Claim C3: when reading or parsing the request line throws (in
particular on an empty line, which `JSON.parse` rejects), the connection is
answered `status:"error"` with the thrown message and neither the state
store, nor the suppression set, nor the clipboard is touched. -/
theorem parse_error_no_state_change (st : ExtState) (now : Int) (msg : String) :
    processIncoming st now (some (.error msg)) = (.error msg, st, []) := rfl

/-- Claim C7: for every payload, handling with a missing timestamp and a
missing node field coincides with handling the same payload whose timestamp
is the current time and whose node is the literal string "remote" — the
defaults are applied before any dispatch or reconciliation decision. -/
theorem missing_fields_defaulted (st : ExtState) (now : Int) (p : Payload) :
    handlePayload st now (.object { p with timestamp := none, node := none }) =
      handlePayload st now (.object { p with timestamp := some now, node := some "remote" }) := by
  apply handlePayload_congr <;> simp [jsOr, jsNumOr]

/-- Claim C8: endpoint resolution in `_sendMessage` yields no connection
when the endpoint is unset, when `GLib.Uri.parse` fails, or when the URI
lacks a host or a valid port; when the URI has a host but no port (`-1`),
the configured listen port is used as the destination port. -/
theorem sendMessage_endpoint_resolution (e h : String) (p lp : Int) (u : UriInfo) :
    resolvePeer e none lp = none ∧
    resolvePeer "" (some u) lp = none ∧
    resolvePeer e (some ⟨none, p⟩) lp = none ∧
    resolvePeer e (some ⟨some h, p⟩) lp =
      (if e = "" ∨ h = "" ∨ (if p = -1 then lp else p) ≤ 0 ∨ (if p = -1 then lp else p) > 65535
       then none
       else some (h, if p = -1 then lp else p)) := by
  refine ⟨?_, ?_, ?_, ?_⟩
  · by_cases he : e = "" <;> simp [resolvePeer, he]
  · simp [resolvePeer]
  · by_cases he : e = "" <;> simp [resolvePeer, he]
  · by_cases he : e = "" <;> simp [resolvePeer, he]

/-- Claim C9: an authenticated payload whose type field is missing or falsy
(the empty string) is dispatched exactly as `type:"update"`; only a present,
non-falsy type other than "update" and "pull" is answered with the
unsupported-payload-type error. -/
theorem falsy_type_dispatched_as_update (st : ExtState) (now : Int) (p : Payload) :
    (handlePayload st now (.object { p with type := none }) =
      handlePayload st now (.object { p with type := some "update" })) ∧
    (handlePayload st now (.object { p with type := some "" }) =
      handlePayload st now (.object { p with type := some "update" })) ∧
    (∀ t : String, t ≠ "" → t ≠ "update" → t ≠ "pull" →
      p.secret = some st.settings.sharedSecret →
      handlePayload st now (.object { p with type := some t }) =
        (.error (String.append "Unsupported payload type: " t), st, [])) := by
  refine ⟨?_, ?_, ?_⟩
  · apply handlePayload_congr <;> simp [jsOr]
  · apply handlePayload_congr <;> simp [jsOr]
  · intro t ht0 htu htp hsec
    have hty : jsOr (some t) "update" = t := by simp [jsOr, ht0]
    simp [handlePayload, hsec, hty, htu, htp]

def w9State : ExtState := ⟨⟨"s", true⟩, "B", [], []⟩

def w9Payload : Payload := ⟨some "s", none, some "CLIPBOARD", some 5, some "A", some "x"⟩

/-- Witness for C9 at a concrete unsupported type. -/
theorem falsy_type_dispatched_as_update_witness :
    handlePayload w9State 0 (.object { w9Payload with type := some "bogus" }) =
      (.error (String.append "Unsupported payload type: " "bogus"), w9State, []) :=
  (falsy_type_dispatched_as_update w9State 0 w9Payload).2.2 "bogus"
    (by decide) (by decide) (by decide) (by decide)

/-- After `_handlePayload`, the state store is either untouched or equal to
the previous store with one accepted update written through
`_recordState`. -/
theorem handlePayload_latestState_cases (st : ExtState) (now : Int) (pp : Parsed) :
    (handlePayload st now pp).2.1.latestState = st.latestState ∨
    ∃ (sel : ClipboardType) (ts : Int) (node text : String),
      shouldAcceptUpdate st sel ts node text = true ∧
      (handlePayload st now pp).2.1.latestState =
        setState st.latestState (selectionKey sel) ⟨text, ts, node⟩ := by
  cases pp with
  | nonObject => exact Or.inl rfl
  | object p =>
    by_cases hsec : p.secret = some st.settings.sharedSecret
    · by_cases hty : jsOr p.type "update" = "update"
      · cases hsel : selectionFromKey st.settings.syncPrimary p.selection with
        | none => left; simp [handlePayload, hsec, hty, hsel]
        | some sel =>
          by_cases hacc : shouldAcceptUpdate st sel (jsNumOr p.timestamp now)
              (jsOr p.node "remote") (p.text.getD "") = true
          · right
            refine ⟨sel, jsNumOr p.timestamp now, jsOr p.node "remote", p.text.getD "",
              hacc, ?_⟩
            simp [handlePayload, hsec, hty, hsel, hacc, recordState, setClipboardFromRemote]
          · left; simp [handlePayload, hsec, hty, hsel, hacc]
      · by_cases hty2 : jsOr p.type "update" = "pull"
        · cases hgs : getState st.latestState (jsOr p.selection "CLIPBOARD") with
          | none => left; simp [handlePayload, hsec, hty, hty2, hgs]
          | some s => left; simp [handlePayload, hsec, hty, hty2, hgs]
        · left; simp [handlePayload, hsec, hty, hty2]
    · left; simp [handlePayload, hsec]

/-- Claim C10: through the server's payload-handling path, the stored
timestamp of every channel is non-decreasing — whatever record a channel
holds after handling a request has a timestamp at least that of the record
it held before. -/
theorem stored_timestamp_monotone (st : ExtState) (now : Int)
    (line : Option (Except String Parsed)) (key : String) (r r' : StateRecord)
    (hr : getState st.latestState key = some r)
    (hr' : getState (processIncoming st now line).2.1.latestState key = some r') :
    r.timestamp ≤ r'.timestamp := by
  cases line with
  | none =>
    have h2 : getState st.latestState key = some r' := hr'
    rw [hr] at h2
    exact le_of_eq (congrArg StateRecord.timestamp (Option.some.inj h2))
  | some res =>
    cases res with
    | error msg =>
      have h2 : getState st.latestState key = some r' := hr'
      rw [hr] at h2
      exact le_of_eq (congrArg StateRecord.timestamp (Option.some.inj h2))
    | ok pp =>
      have h2 : getState (handlePayload st now pp).2.1.latestState key = some r' := hr'
      rcases handlePayload_latestState_cases st now pp with hst | ⟨sel, ts, node, text, hacc, hst⟩
      · rw [hst, hr] at h2
        exact le_of_eq (congrArg StateRecord.timestamp (Option.some.inj h2))
      · rw [hst, getState_setState] at h2
        by_cases hkey : key = selectionKey sel
        · rw [if_pos hkey] at h2
          have hrv : r' = ⟨text, ts, node⟩ := (Option.some.inj h2).symm
          have hge : r.timestamp ≤ ts :=
            shouldAccept_timestamp_ge st sel ts node text r hacc (hkey ▸ hr)
          rw [hrv]
          exact hge
        · rw [if_neg hkey, hr] at h2
          exact le_of_eq (congrArg StateRecord.timestamp (Option.some.inj h2))

def w10State : ExtState := ⟨⟨"s", true⟩, "B", [("CLIPBOARD", ⟨"old", 5, "A"⟩)], []⟩

def w10Line : Option (Except String Parsed) :=
  some (.ok (.object ⟨some "s", some "update", some "CLIPBOARD", some 7, some "C", some "new"⟩))

/-- Witness for C10 at a concrete accepted update over an existing record. -/
theorem stored_timestamp_monotone_witness :
    (⟨"old", 5, "A"⟩ : StateRecord).timestamp ≤ (⟨"new", 7, "C"⟩ : StateRecord).timestamp :=
  stored_timestamp_monotone w10State 0 w10Line "CLIPBOARD" ⟨"old", 5, "A"⟩ ⟨"new", 7, "C"⟩
    (by decide) (by decide)

/-- A request answered `status:"ok"` is exactly an authenticated, accepted
update: this pins down every branch condition and the resulting state. -/
theorem handlePayload_ok_shape (st : ExtState) (now : Int) (p : Payload)
    (hok : (handlePayload st now (.object p)).1 = .ok) :
    p.secret = some st.settings.sharedSecret ∧
    jsOr p.type "update" = "update" ∧
    ∃ sel, selectionFromKey st.settings.syncPrimary p.selection = some sel ∧
      shouldAcceptUpdate st sel (jsNumOr p.timestamp now)
        (jsOr p.node "remote") (p.text.getD "") = true ∧
      handlePayload st now (.object p) =
        (.ok,
          recordState (setClipboardFromRemote st sel) sel (p.text.getD "")
            (jsNumOr p.timestamp now) (jsOr p.node "remote"),
          [⟨sel, p.text.getD ""⟩]) := by
  by_cases hsec : p.secret = some st.settings.sharedSecret
  · by_cases hty : jsOr p.type "update" = "update"
    · cases hsel : selectionFromKey st.settings.syncPrimary p.selection with
      | none => simp [handlePayload, hsec, hty, hsel] at hok
      | some sel =>
        by_cases hacc : shouldAcceptUpdate st sel (jsNumOr p.timestamp now)
            (jsOr p.node "remote") (p.text.getD "") = true
        · exact ⟨hsec, hty, sel, rfl, hacc, by simp [handlePayload, hsec, hty, hsel, hacc]⟩
        · simp [handlePayload, hsec, hty, hsel, hacc] at hok
    · by_cases hty2 : jsOr p.type "update" = "pull"
      · cases hgs : getState st.latestState (jsOr p.selection "CLIPBOARD") with
        | none => simp [handlePayload, hsec, hty, hty2, hgs] at hok
        | some s => simp [handlePayload, hsec, hty, hty2, hgs] at hok
      · simp [handlePayload, hsec, hty, hty2] at hok
  · simp [handlePayload, hsec] at hok

/-- An authenticated update whose channel already stores exactly its
`(timestamp, text)` pair from the same origin is rejected as a duplicate:
the response is `status:"ignored"` and nothing changes. -/
theorem accepted_then_duplicate (st : ExtState) (now' ts : Int) (p : Payload)
    (sel : ClipboardType)
    (hsec : p.secret = some st.settings.sharedSecret)
    (hty : jsOr p.type "update" = "update")
    (hsel : selectionFromKey st.settings.syncPrimary p.selection = some sel)
    (hts : jsNumOr p.timestamp now' = ts)
    (hnode : jsOr p.node "remote" ≠ st.nodeId)
    (hcur : getState st.latestState (selectionKey sel) =
      some ⟨p.text.getD "", ts, jsOr p.node "remote"⟩) :
    handlePayload st now' (.object p) = (.ignored, st, []) := by
  have hacc : shouldAcceptUpdate st sel (jsNumOr p.timestamp now')
      (jsOr p.node "remote") (p.text.getD "") = false := by
    simp [shouldAcceptUpdate, hcur, hnode, hts]
  simp [handlePayload, hsec, hty, hsel, hacc]

/-- Claim C6: handling the same authenticated update twice is idempotent —
if the first handling is accepted (`status:"ok"`), handling the identical
payload again answers `status:"ignored"` and leaves the entire state (in
particular the channel's stored timestamp and text) unchanged, with no
clipboard write. -/
theorem update_idempotent (st : ExtState) (now now' ts : Int) (p : Payload)
    (hts : p.timestamp = some ts) (h0 : ts ≠ 0)
    (hok : (handlePayload st now (.object p)).1 = .ok) :
    handlePayload (handlePayload st now (.object p)).2.1 now' (.object p) =
      (.ignored, (handlePayload st now (.object p)).2.1, []) := by
  obtain ⟨hsec, hty, sel, hsel, hacc, heq⟩ := handlePayload_ok_shape st now p hok
  have hnum : ∀ d : Int, jsNumOr p.timestamp d = ts := fun d => by simp [jsNumOr, hts, h0]
  have hnode := shouldAccept_node_ne st sel (jsNumOr p.timestamp now)
    (jsOr p.node "remote") (p.text.getD "") hacc
  rw [heq]
  have hcur2 : getState (recordState (setClipboardFromRemote st sel) sel (p.text.getD "")
        (jsNumOr p.timestamp now) (jsOr p.node "remote")).latestState (selectionKey sel) =
      some ⟨p.text.getD "", ts, jsOr p.node "remote"⟩ := by
    show getState (setState st.latestState (selectionKey sel)
        ⟨p.text.getD "", jsNumOr p.timestamp now, jsOr p.node "remote"⟩) (selectionKey sel) = _
    rw [getState_setState, if_pos rfl, hnum now]
  exact accepted_then_duplicate _ now' ts p sel hsec hty hsel (hnum now') hnode hcur2

def w6State : ExtState := ⟨⟨"s", true⟩, "B", [], []⟩

def w6Payload : Payload :=
  ⟨some "s", some "update", some "CLIPBOARD", some 1000, some "A", some "hello"⟩

/-- Witness for C6: a concrete update accepted on an empty store, then
handled again and ignored with the state untouched. -/
theorem update_idempotent_witness :
    handlePayload (handlePayload w6State 0 (.object w6Payload)).2.1 0 (.object w6Payload) =
      (.ignored, (handlePayload w6State 0 (.object w6Payload)).2.1, []) :=
  update_idempotent w6State 0 0 1000 w6Payload (by decide) (by decide) (by decide)

def c1State : ExtState := ⟨⟨"s", true⟩, "B", [("CLIPBOARD", ⟨"hello", 1000, "A"⟩)], []⟩

def c1Pull : Payload := ⟨some "s", some "pull", some "CLIPBOARD", none, none, none⟩

/-- Counterexample to claim C1 as stated: on a node whose id is "B", with
the CLIPBOARD channel storing a record whose origin node is "A", an
authenticated pull returns the stored timestamp and text but carries node
"B" (the local node id), not the stored record's origin node "A". -/
theorem pull_origin_node_counterexample :
    getState c1State.latestState "CLIPBOARD" = some ⟨"hello", 1000, "A"⟩ ∧
    (handlePayload c1State 0 (.object c1Pull)).1 = .pullOk "B" "CLIPBOARD" 1000 "hello" ∧
    (handlePayload c1State 0 (.object c1Pull)).1 ≠ .pullOk "A" "CLIPBOARD" 1000 "hello" := by
  decide

/-- Claim C1 amended: an authenticated pull against a channel with a stored
record returns exactly the stored record's timestamp and text together with
the local node id (not the record's origin node), and leaves the state
unchanged; against a channel with no record it returns `status:"empty"`. -/
theorem pull_returns_stored_record (st : ExtState) (now : Int) (p : Payload)
    (hsec : p.secret = some st.settings.sharedSecret)
    (hty : jsOr p.type "update" = "pull") :
    handlePayload st now (.object p) =
      (match getState st.latestState (jsOr p.selection "CLIPBOARD") with
       | none => (.empty, st, [])
       | some r =>
         (.pullOk st.nodeId (jsOr p.selection "CLIPBOARD") r.timestamp r.text, st, [])) := by
  have hty1 : ¬ jsOr p.type "update" = "update" := by rw [hty]; decide
  cases hgs : getState st.latestState (jsOr p.selection "CLIPBOARD") with
  | none => simp [handlePayload, hsec, hty, hty1, hgs]
  | some r => simp [handlePayload, hsec, hty, hty1, hgs]

/-- Witness for the amended C1 at a concrete stored record. -/
theorem pull_returns_stored_record_witness :
    handlePayload c1State 0 (.object c1Pull) =
      (.pullOk "B" "CLIPBOARD" 1000 "hello", c1State, []) := by
  have h := pull_returns_stored_record c1State 0 c1Pull (by decide) (by decide)
  simpa using h

def c2State : ExtState := ⟨⟨"s", false⟩, "B", [("PRIMARY", ⟨"ptext", 5, "A"⟩)], []⟩

def c2Pull : Payload := ⟨some "s", some "pull", some "PRIMARY", none, none, none⟩

/-- Counterexample to claim C2 as stated: with `sync-primary` disabled and
a PRIMARY record in the store, an authenticated pull for PRIMARY still
returns the stored record instead of behaving as if the channel did not
exist. -/
theorem primary_disabled_pull_counterexample :
    c2State.settings.syncPrimary = false ∧
    getState c2State.latestState "PRIMARY" = some ⟨"ptext", 5, "A"⟩ ∧
    (handlePayload c2State 0 (.object c2Pull)).1 = .pullOk "B" "PRIMARY" 5 "ptext" ∧
    (handlePayload c2State 0 (.object c2Pull)).1 ≠ .empty := by
  decide

/-- Claim C2 amended: with `sync-primary` disabled, an authenticated
request naming selection "PRIMARY" is rejected only on the update path —
an update is answered `status:"error"`/"Unknown selection" with no state
change and no clipboard write — while the pull path is not gated: a pull
for "PRIMARY" returns any stored PRIMARY record (and `status:"empty"` when
none is stored). -/
theorem primary_disabled_behavior (st : ExtState) (now : Int) (p : Payload)
    (hsp : st.settings.syncPrimary = false)
    (hsec : p.secret = some st.settings.sharedSecret)
    (hsel : p.selection = some "PRIMARY") :
    (jsOr p.type "update" = "update" →
      handlePayload st now (.object p) = (.error "Unknown selection", st, [])) ∧
    (jsOr p.type "update" = "pull" →
      handlePayload st now (.object p) =
        (match getState st.latestState "PRIMARY" with
         | none => (.empty, st, [])
         | some r => (.pullOk st.nodeId "PRIMARY" r.timestamp r.text, st, []))) := by
  constructor
  · intro hty
    have h0 : selectionFromKey st.settings.syncPrimary p.selection = none := by
      simp [selectionFromKey, hsel, hsp]
    simp [handlePayload, hsec, hty, h0]
  · intro hty
    have h1 : jsOr p.selection "CLIPBOARD" = "PRIMARY" := by simp [jsOr, hsel]
    have hty1 : ¬ jsOr p.type "update" = "update" := by rw [hty]; decide
    cases hgs : getState st.latestState "PRIMARY" with
    | none => simp [handlePayload, hsec, hty, hty1, h1, hgs]
    | some r => simp [handlePayload, hsec, hty, hty1, h1, hgs]

/-- Witness for the amended C2: the concrete pull above does return the
stored PRIMARY record. -/
theorem primary_disabled_behavior_witness :
    handlePayload c2State 0 (.object c2Pull) =
      (.pullOk "B" "PRIMARY" 5 "ptext", c2State, []) := by
  have h := (primary_disabled_behavior c2State 0 c2Pull
    (by decide) (by decide) (by decide)).2 (by decide)
  simpa using h

end ClipboardSync
